import Mathlib

/-!
Shallow embedding of `src/water.cpp` (an OpenGL wave simulation):
the simulation fragment shader's per-texel update rule, the ping-pong
texture bookkeeping of the frame loop, the camera input handling, the
mesh index generation, and the startup control flow.
-/

namespace OceanWaves

/-- Grid resolution, `int gridSize = 50;` in `main`. -/
def gridSize : ℕ := 50

/-- Simulation timestep, `float dt = 0.016f;` in `main`. -/
def dt : ℚ := 16 / 1000

/-- Grid spacing constant, `float dx = 0.1f;` in `main` (declared as a
shader uniform but unused inside the shader body). -/
def dx : ℚ := 1 / 10

/-- Wave speed, `float c = 0.3f;` in `main`. -/
def c : ℚ := 3 / 10

/-- The multiplicative decay `next *= 0.999;` applied by the simulation
fragment shader. -/
def damping : ℚ := 999 / 1000

/-- A scalar field state: one single-channel `gridSize × gridSize`
texture, indexed by row `y` and column `x`. -/
def Field : Type := Fin gridSize → Fin gridSize → ℚ

/-- Clamp an integer texel index into `[0, gridSize-1]`: the effect of
`GL_CLAMP_TO_EDGE` sampling when the shader offsets a texel-center
coordinate by one texel. -/
def clampIdx (i : ℤ) : Fin gridSize :=
  ⟨(min (max i 0) (gridSize - 1 : ℤ)).toNat, by
    have h : (min (max i 0) (gridSize - 1 : ℤ)) ≤ (gridSize - 1 : ℤ) :=
      min_le_right _ _
    simp only [gridSize] at h ⊢
    omega⟩

/-- `texture(currentState, coord).r` for a coordinate displaced to the
integer texel position `(y, x)`, with clamp-to-edge behaviour. -/
def texRead (f : Field) (y x : ℤ) : ℚ := f (clampIdx y) (clampIdx x)

/-- One simulation step: the body of `simFragmentShaderSource` applied
at every texel. `left`/`right` offset the x coordinate, `up`/`down` the
y coordinate; the shader computes
`laplacian = (left + right + up + down - 4.0 * current)`,
`next = 2.0 * current - previous + c * dt * dt * laplacian`,
`next *= 0.999`. -/
def stepField (cur prev : Field) : Field := fun y x =>
  let current := cur y x
  let previous := prev y x
  let left := texRead cur (y : ℤ) ((x : ℤ) - 1)
  let right := texRead cur (y : ℤ) ((x : ℤ) + 1)
  let up := texRead cur ((y : ℤ) + 1) (x : ℤ)
  let down := texRead cur ((y : ℤ) - 1) (x : ℤ)
  let laplacian := left + right + up + down - 4 * current
  let next := 2 * current - previous + c * dt * dt * laplacian
  next * damping

/-- The update rule exactly as the spec sentence of claim C1 words it,
with coefficient `c^2 * dt^2` on the laplacian (the clamp-to-edge
neighbour policy written directly on natural-number indices):
`next = (2*current - previous + c^2 * dt^2 * laplacian) * damping`. -/
def specStepC1 (cur prev : Field) : Field := fun y x =>
  let current := cur y x
  let up := cur ⟨min (y.val + 1) (gridSize - 1), by unfold gridSize; omega⟩ x
  let down := cur ⟨y.val - 1, by omega⟩ x
  let left := cur y ⟨x.val - 1, by omega⟩
  let right := cur y ⟨min (x.val + 1) (gridSize - 1), by unfold gridSize; omega⟩
  let laplacian := up + down + left + right - 4 * current
  (2 * current - prev y x + c ^ 2 * dt ^ 2 * laplacian) * damping

/-- The amended update rule: identical to the C1 spec sentence except
that the laplacian coefficient is `c * dt^2` (a single factor of `c`),
matching `c * dt * dt` in the shader source. -/
def specStepC1Amended (cur prev : Field) : Field := fun y x =>
  let current := cur y x
  let up := cur ⟨min (y.val + 1) (gridSize - 1), by unfold gridSize; omega⟩ x
  let down := cur ⟨y.val - 1, by omega⟩ x
  let left := cur y ⟨x.val - 1, by omega⟩
  let right := cur y ⟨min (x.val + 1) (gridSize - 1), by unfold gridSize; omega⟩
  let laplacian := up + down + left + right - 4 * current
  (2 * current - prev y x + c * dt ^ 2 * laplacian) * damping

/-- The everywhere-zero field. -/
def zeroF : Field := fun _ _ => 0

/-- A concrete current field used as a test input: a unit bump at texel
(25, 25), zero elsewhere. -/
def curBump : Field := fun y x =>
  if y.val = 25 then (if x.val = 25 then 1 else 0) else 0

/-- The simulation step without the final `next *= 0.999;` line: the
raw leapfrog update `2*current - previous + c*dt*dt*laplacian`. -/
def undampedStep (cur prev : Field) : Field := fun y x =>
  let current := cur y x
  let previous := prev y x
  let left := texRead cur (y : ℤ) ((x : ℤ) - 1)
  let right := texRead cur (y : ℤ) ((x : ℤ) + 1)
  let up := texRead cur ((y : ℤ) + 1) (x : ℤ)
  let down := texRead cur ((y : ℤ) - 1) (x : ℤ)
  let laplacian := left + right + up + down - 4 * current
  2 * current - previous + c * dt * dt * laplacian

/-- Total field energy as the spec defines it: the sum of squared
samples over the whole grid. -/
def energySq (f : Field) : ℚ := ∑ y : Fin gridSize, ∑ x : Fin gridSize, (f y x) ^ 2

/-! ## Ping-pong texture bookkeeping

`main` owns two textures `waveTex1`, `waveTex2`; `waveFBO1` has
`waveTex1` attached and `waveFBO2` has `waveTex2` attached. A boolean
`isFirstTexture` selects the bindings each frame. -/

/-- The two wave-state textures of `main`. -/
inductive WaveTex where
  | waveTex1 : WaveTex
  | waveTex2 : WaveTex
  deriving DecidableEq

/-- The texture attached to the framebuffer the simulation pass renders
into: `glBindFramebuffer(GL_FRAMEBUFFER, isFirstTexture ? waveFBO2 : waveFBO1)`. -/
def simOutputTex (isFirstTexture : Bool) : WaveTex :=
  if isFirstTexture then .waveTex2 else .waveTex1

/-- The texture bound to the `currentState` sampler of the simulation
pass: `glBindTexture(GL_TEXTURE_2D, isFirstTexture ? waveTex1 : waveTex2)`
on texture unit 0. -/
def simCurrentTex (isFirstTexture : Bool) : WaveTex :=
  if isFirstTexture then .waveTex1 else .waveTex2

/-- The texture bound to the `previousState` sampler of the simulation
pass: `glBindTexture(GL_TEXTURE_2D, isFirstTexture ? waveTex2 : waveTex1)`
on texture unit 1. -/
def simPreviousTex (isFirstTexture : Bool) : WaveTex :=
  if isFirstTexture then .waveTex2 else .waveTex1

/-- The texture bound to the `heightMap` sampler of the render pass:
`glBindTexture(GL_TEXTURE_2D, isFirstTexture ? waveTex2 : waveTex1)`. -/
def heightMapTex (isFirstTexture : Bool) : WaveTex :=
  if isFirstTexture then .waveTex2 else .waveTex1

/-- The parity flip at the end of every frame:
`isFirstTexture = !isFirstTexture;`. -/
def advance (isFirstTexture : Bool) : Bool := !isFirstTexture

/-! ## Orbit camera and input handling -/

/-- The camera parameters of `main`: `cameraDistance`, `cameraTheta`,
`cameraPhi`. -/
structure CameraState where
  distance : ℚ
  theta : ℚ
  phi : ℚ
  deriving DecidableEq

/-- The initial camera state:
`cameraDistance = 8.0`, `cameraTheta = 0.785`, `cameraPhi = 0.615`. -/
def initCamera : CameraState := ⟨8, 785 / 1000, 615 / 1000⟩

/-- The pressed/held state of the camera keys polled in one frame
(LEFT, RIGHT, UP, DOWN, W, S). -/
structure KeysHeld where
  left : Bool
  right : Bool
  up : Bool
  down : Bool
  zoomIn : Bool
  zoomOut : Bool
  deriving DecidableEq

/-- One frame of input handling from `main`, applied in source order:
LEFT: `cameraTheta -= 0.02`; RIGHT: `cameraTheta += 0.02`;
UP: `cameraPhi = min(cameraPhi + 0.02, 1.5)`;
DOWN: `cameraPhi = max(cameraPhi - 0.02, 0.1)`;
W: `cameraDistance = max(cameraDistance - 0.1, 1.0)`;
S: `cameraDistance += 0.1`. -/
def updateCamera (k : KeysHeld) (s : CameraState) : CameraState :=
  let theta1 := if k.left then s.theta - 2 / 100 else s.theta
  let theta2 := if k.right then theta1 + 2 / 100 else theta1
  let phi1 := if k.up then min (s.phi + 2 / 100) (3 / 2) else s.phi
  let phi2 := if k.down then max (phi1 - 2 / 100) (1 / 10) else phi1
  let dist1 := if k.zoomIn then max (s.distance - 1 / 10) 1 else s.distance
  let dist2 := if k.zoomOut then dist1 + 1 / 10 else dist1
  { distance := dist2, theta := theta2, phi := phi2 }

/-- The camera state after a sequence of per-frame inputs starting from
the initial camera state. -/
def applyInputs (l : List KeysHeld) : CameraState :=
  l.foldl (fun s k => updateCamera k s) initCamera

/-! ## Startup control flow -/

/-- Outcome of the startup sequence in `main`: either an early
`return -1` before the frame loop, or reaching the `while` loop. -/
inductive StartupOutcome where
  | earlyReturn : StartupOutcome
  | entersLoop : StartupOutcome
  deriving DecidableEq

/-- Diagnostics emitted by `createShader`: on compile failure it prints
the info log but still returns the shader handle. -/
def createShaderDiag (compileOk : Bool) : List String :=
  if compileOk then [] else ["Shader compilation failed"]

/-- Diagnostics emitted by `createShaderProgram`: compile diagnostics
for both stages, then a link diagnostic on link failure; the program
handle is returned unconditionally. -/
def createShaderProgramDiag (vsOk fsOk linkOk : Bool) : List String :=
  createShaderDiag vsOk ++ createShaderDiag fsOk ++
    (if linkOk then [] else ["Program linking failed"])

/-- The startup control flow of `main`: `glfwInit`, window creation and
`glewInit` failures each `return -1`; the two `createShaderProgram`
calls follow, and their success flags never influence control flow —
execution proceeds to the frame loop regardless. -/
def startupOutcome (glfwOk windowOk glewOk : Bool)
    (renderVsOk renderFsOk renderLinkOk simVsOk simFsOk simLinkOk : Bool) :
    StartupOutcome :=
  if !glfwOk then .earlyReturn
  else if !windowOk then .earlyReturn
  else if !glewOk then .earlyReturn
  else .entersLoop

/-! ## Frame-loop event order -/

/-- The observable operations of one iteration of the `while` loop of
`main`, in the order the source performs them. -/
inductive FrameEvent where
  | checkExit : FrameEvent
  | deriveCamera : FrameEvent
  | handleInput : FrameEvent
  | clearBuffers : FrameEvent
  | simStep : FrameEvent
  | renderPass : FrameEvent
  | present : FrameEvent
  | pollEvents : FrameEvent
  | flipParity : FrameEvent
  deriving DecidableEq

/-- The order of operations in one frame of `main`'s loop:
the `while (!glfwWindowShouldClose(window))` exit check, camera position
derivation, key handling (which updates the camera parameters and sets
the close flag on ESC), `glClear`, the simulation draw, the mesh render
draw, `glfwSwapBuffers`, `glfwPollEvents`, and finally
`isFirstTexture = !isFirstTexture;`. -/
def frameEvents : List FrameEvent :=
  [.checkExit, .deriveCamera, .handleInput, .clearBuffers,
   .simStep, .renderPass, .present, .pollEvents, .flipParity]

/-! ## Mesh index generation -/

/-- The index buffer built by the double loop in `main`: for each cell
`(z, x)` with `z, x < gridSize - 1`, pushes `bl, tl, br, br, tl, tr`
where `bl = z*gridSize + x`, `br = bl + 1`, `tl = (z+1)*gridSize + x`,
`tr = tl + 1`. -/
def gridIndices (g : ℕ) : List ℕ :=
  (List.range (g - 1)).flatMap fun z =>
    (List.range (g - 1)).flatMap fun x =>
      [z * g + x, (z + 1) * g + x, z * g + x + 1,
       z * g + x + 1, (z + 1) * g + x, (z + 1) * g + x + 1]

/-! ## Texture initialisation -/

/-- A real-valued field state, for the initial-condition model. -/
def RField : Type := Fin gridSize → Fin gridSize → ℝ

/-- The `initialData` vector built in `main`: starts all zero
(`std::vector<float> initialData(gridSize * gridSize, 0.0f)`), then for
each `(y, x)` with `d = sqrt((x-centerX)^2 + (y-centerY)^2) < waveRadius`
sets `2.0f * exp(-d*d/(waveRadius*waveRadius))`, where
`centerX = centerY = gridSize/2 = 25` and `waveRadius = gridSize/4 = 12.5`. -/
noncomputable def initialData : RField := fun y x =>
  let dxv : ℝ := (x.val : ℝ) - 25
  let dyv : ℝ := (y.val : ℝ) - 25
  let d : ℝ := Real.sqrt (dxv * dxv + dyv * dyv)
  if d < 25 / 2 then 2 * Real.exp (-(d * d) / ((25 / 2) * (25 / 2))) else 0

/-- The contents of the two wave textures right after setup in `main`.
Both are allocated by `glTexImage2D(..., NULL)`, whose resulting texel
contents are unspecified — modelled by the arbitrary fields `alloc1`
and `alloc2`. `glTexSubImage2D` then overwrites the whole of `waveTex1`
with `initialData`; `waveTex2` is never written. -/
noncomputable def setupTextures (alloc1 alloc2 : RField) : RField × RField :=
  (fun y x => initialData y x, alloc2)

/-! ## Helper lemmas -/

/-- Clamping the texel above: one step up from row `y` stays at
`gridSize - 1` on the top edge. -/
theorem clampIdx_add_one (y : Fin gridSize) :
    clampIdx ((y : ℤ) + 1) = ⟨min (y.val + 1) (gridSize - 1), by unfold gridSize; omega⟩ := by
  have hy := y.isLt
  apply Fin.ext
  simp only [clampIdx, gridSize] at hy ⊢
  omega

/-- Clamping the texel below: one step down from row `y` stays at `0`
on the bottom edge (natural subtraction already clamps at zero). -/
theorem clampIdx_sub_one (y : Fin gridSize) :
    clampIdx ((y : ℤ) - 1) = ⟨y.val - 1, by omega⟩ := by
  have hy := y.isLt
  apply Fin.ext
  simp only [clampIdx, gridSize] at hy ⊢
  omega

/-- Clamping an in-range texel index is the identity. -/
theorem clampIdx_self (y : Fin gridSize) : clampIdx (y : ℤ) = y := by
  have hy := y.isLt
  apply Fin.ext
  simp only [clampIdx, gridSize] at hy ⊢
  omega

/-- The shader's clamped texture reads agree, texel by texel, with the
clamp-to-edge neighbour policy written on natural-number indices. -/
theorem step_matches_amended (cur prev : Field) (y x : Fin gridSize) :
    stepField cur prev y x = specStepC1Amended cur prev y x := by
  simp only [stepField, specStepC1Amended, texRead,
    clampIdx_add_one, clampIdx_sub_one, clampIdx_self]
  ring

/-! ## Claim theorems -/

/-- Claim C1, counterexample: the per-texel update computed by the
shader differs from the spec's stated rule (coefficient `c^2 * dt^2`)
at a concrete input — current field a unit bump at texel (25, 25),
previous field zero, evaluated at texel (25, 24). -/
theorem stepField_ne_specStepC1 :
    stepField curBump zeroF ⟨25, by unfold gridSize; omega⟩ ⟨24, by unfold gridSize; omega⟩ ≠
    specStepC1 curBump zeroF ⟨25, by unfold gridSize; omega⟩ ⟨24, by unfold gridSize; omega⟩ := by
  rw [step_matches_amended]
  have h1 : specStepC1Amended curBump zeroF ⟨25, by unfold gridSize; omega⟩
      ⟨24, by unfold gridSize; omega⟩ = 3 / 10 * (16 / 1000) ^ 2 * (999 / 1000) := by
    simp only [specStepC1Amended, curBump, zeroF, gridSize]
    norm_num [c, dt, damping]
  have h2 : specStepC1 curBump zeroF ⟨25, by unfold gridSize; omega⟩
      ⟨24, by unfold gridSize; omega⟩ = (3 / 10) ^ 2 * (16 / 1000) ^ 2 * (999 / 1000) := by
    simp only [specStepC1, curBump, zeroF, gridSize]
    norm_num [c, dt, damping]
  rw [h1, h2]
  norm_num

/-- Claim C1 as amended: for every texel, one simulation step computes
`next = (2*current - previous + c * dt^2 * laplacian) * damping` with
`laplacian = up + down + left + right - 4*current` and clamp-to-edge
neighbour sampling — a single factor of `c`, not `c^2`. -/
theorem stepField_eq_specStepC1Amended :
    ∀ (cur prev : Field) (y x : Fin gridSize),
      stepField cur prev y x = specStepC1Amended cur prev y x := by
  intro cur prev y x
  exact step_matches_amended cur prev y x

/-- Claim C2 evidence: in every frame the texture attached to the
simulation framebuffer equals the texture bound to the `previousState`
sampler — the step's output aliases one of its read sources (though it
is always distinct from `currentState`). -/
theorem simOutput_aliases_previousTex :
    ∀ b : Bool, simOutputTex b = simPreviousTex b ∧ simOutputTex b ≠ simCurrentTex b := by
  decide

/-- Claim C3, counterexample: with windowing and GLEW init successful
but every shader compile and link failed, startup still reaches the
frame loop rather than aborting. -/
theorem startup_shader_failure_enters_loop :
    startupOutcome true true true false false false false false false =
      StartupOutcome.entersLoop ∧
    StartupOutcome.entersLoop ≠ StartupOutcome.earlyReturn := by
  decide

/-- Claim C3 as amended: shader compile/link failures are reported via
diagnostic messages, but the program does not abort — startup reaches
the frame loop regardless of the shader success flags. -/
theorem shader_failure_diag_and_continue :
    ∀ rv rf rl sv sf sl : Bool,
      startupOutcome true true true rv rf rl sv sf sl = StartupOutcome.entersLoop ∧
      "Shader compilation failed" ∈ createShaderProgramDiag false rf rl ∧
      "Program linking failed" ∈ createShaderProgramDiag rv rf false := by
  decide

/-- Claim C4: after the simulation step and the single parity flip, the
buffer tagged current (bound as `currentState` next step, and already
sampled as the `heightMap` by this frame's renderer) is exactly the
buffer the step wrote, and never the buffer that was current before. -/
theorem current_after_advance_eq_written :
    ∀ b : Bool,
      simCurrentTex (advance b) = simOutputTex b ∧
      heightMapTex b = simOutputTex b ∧
      simCurrentTex (advance b) ≠ simCurrentTex b := by
  decide

/-- Claim C7: the simulation constants satisfy the CFL bound:
`c * dt / dx = 6/125 = 0.048 ≤ 1`. -/
theorem cfl_constants_bound : c * dt / dx = 6 / 125 ∧ c * dt / dx ≤ 1 := by
  constructor <;> norm_num [c, dt, dx]

/-- The camera invariant maintained by the input handling: elevation in
`[0.1, 1.5]` and distance at least `1`. -/
def CamInv (s : CameraState) : Prop :=
  1 / 10 ≤ s.phi ∧ s.phi ≤ 3 / 2 ∧ 1 ≤ s.distance

/-- One frame of input handling preserves the camera invariant. -/
theorem camInv_update (k : KeysHeld) (s : CameraState) (h : CamInv s) :
    CamInv (updateCamera k s) := by
  obtain ⟨h1, h2, h3⟩ := h
  simp only [CamInv, updateCamera]
  refine ⟨?_, ?_, ?_⟩ <;>
    rcases k.up with _ | _ <;> rcases k.down with _ | _ <;>
      rcases k.zoomIn with _ | _ <;> rcases k.zoomOut with _ | _ <;>
        simp_all [le_min_iff, min_le_iff, le_max_iff, max_le_iff] <;>
          first
            | linarith
            | (left; linarith)
            | linarith [le_max_right (s.distance - 1 / 10) (1 : ℚ)]
            | (constructor <;> first | linarith | (left; linarith))

/-- The camera invariant holds after folding any input sequence over
any state satisfying it. -/
theorem camInv_foldl :
    ∀ (l : List KeysHeld) (s : CameraState), CamInv s →
      CamInv (l.foldl (fun s k => updateCamera k s) s)
  | [], _, h => h
  | k :: l, s, h => camInv_foldl l _ (camInv_update k s h)

/-- Claim C5: for every sequence of per-frame key inputs from the
initial camera state, elevation stays in the closed range `[0.1, 1.5]`,
which lies strictly inside `(-π/2, π/2)`, and distance stays at least
its configured minimum `1`. -/
theorem camera_clamp_invariant :
    ∀ l : List KeysHeld,
      1 / 10 ≤ (applyInputs l).phi ∧ (applyInputs l).phi ≤ 3 / 2 ∧
      ((applyInputs l).phi : ℝ) < Real.pi / 2 ∧
      -(Real.pi / 2) < ((applyInputs l).phi : ℝ) ∧
      1 ≤ (applyInputs l).distance := by
  intro l
  have h : CamInv (applyInputs l) :=
    camInv_foldl l initCamera (by norm_num [CamInv, initCamera])
  obtain ⟨h1, h2, h3⟩ := h
  have hpi := Real.pi_gt_three
  have h2r : ((applyInputs l).phi : ℝ) ≤ ((3 / 2 : ℚ) : ℝ) := by exact_mod_cast h2
  have h1r : ((1 / 10 : ℚ) : ℝ) ≤ ((applyInputs l).phi : ℝ) := by exact_mod_cast h1
  rw [show ((3 / 2 : ℚ) : ℝ) = 3 / 2 by norm_num] at h2r
  rw [show ((1 / 10 : ℚ) : ℝ) = 1 / 10 by norm_num] at h1r
  exact ⟨h1, h2, by linarith, by linarith, h3⟩

/-- The everywhere-one field: a test previous state. -/
def oneF : Field := fun _ _ => 1

/-- Claim C6, counterexample: with current field identically zero and
previous field identically one (no new disturbance is added), one step
produces energy `2500 * damping^2 > 0 = energySq zeroF`, so the sum of
squared samples is not monotone non-increasing relative to the current
field. -/
theorem energy_not_monotone :
    ¬ energySq (stepField zeroF oneF) ≤ energySq zeroF := by
  have hz : energySq zeroF = 0 := by
    simp [energySq, zeroF]
  have hstep : ∀ y x : Fin gridSize, stepField zeroF oneF y x = -(999 / 1000) := by
    intro y x
    simp [stepField, texRead, zeroF, oneF, c, dt, damping]
  have hs : energySq (stepField zeroF oneF) = 2500 * (999 / 1000 : ℚ) ^ 2 := by
    unfold energySq
    rw [Finset.sum_congr rfl fun y _ => Finset.sum_congr rfl fun x _ => by rw [hstep y x]]
    simp [Finset.sum_const, Finset.card_univ, gridSize]
    norm_num
  rw [hz, hs]
  norm_num

/-- Claim C6 as amended: one simulation step scales the sum of squared
samples of the undamped leapfrog update by `damping^2 < 1` — the
damped step's energy never exceeds the undamped update's energy; it is
not in general bounded by the current field's energy. -/
theorem energy_step_eq_damped_undamped :
    ∀ cur prev : Field,
      energySq (stepField cur prev) =
        damping ^ 2 * energySq (undampedStep cur prev) ∧
      energySq (stepField cur prev) ≤ energySq (undampedStep cur prev) := by
  intro cur prev
  have hpt : ∀ y x : Fin gridSize,
      stepField cur prev y x = undampedStep cur prev y x * damping := fun y x => rfl
  have heq : energySq (stepField cur prev) =
      damping ^ 2 * energySq (undampedStep cur prev) := by
    unfold energySq
    rw [Finset.sum_congr rfl fun y _ => Finset.sum_congr rfl fun x _ => by
      rw [hpt y x, mul_pow]]
    rw [Finset.mul_sum]
    refine Finset.sum_congr rfl fun y _ => ?_
    rw [Finset.mul_sum]
    exact Finset.sum_congr rfl fun x _ => by ring
  have hnonneg : 0 ≤ energySq (undampedStep cur prev) :=
    Finset.sum_nonneg fun y _ => Finset.sum_nonneg fun x _ => sq_nonneg _
  have hd : (damping : ℚ) ^ 2 ≤ 1 := by norm_num [damping]
  exact ⟨heq, by nlinarith [heq, hnonneg, hd]⟩

/-- Claim C9, counterexample: the frame loop does not perform the
parity flip between the simulation step and the render pass — the
subsequence (simulation step, parity flip, render pass) does not occur
in the loop body's event order. -/
theorem flip_not_before_render :
    ¬ ([FrameEvent.simStep, FrameEvent.flipParity, FrameEvent.renderPass].Sublist
        frameEvents) := by
  decide

/-- Claim C9 as amended: each frame performs, in order, the exit check,
input handling (which updates the camera), the simulation step, the
render pass, the present, the event poll, and finally the parity flip —
the flip comes after the render pass and present, at the end of the
frame. -/
theorem frame_event_order_actual :
    [FrameEvent.checkExit, FrameEvent.handleInput, FrameEvent.simStep,
     FrameEvent.renderPass, FrameEvent.present, FrameEvent.pollEvents,
     FrameEvent.flipParity].Sublist frameEvents := by
  decide

/-- Length of a flatMap over `List.range` when every block has the
same length. -/
theorem length_flatMap_const {α : Type} (f : ℕ → List α) (k : ℕ)
    (hf : ∀ z, (f z).length = k) : ∀ n, ((List.range n).flatMap f).length = n * k := by
  intro n
  induction n with
  | zero => simp
  | succ m ih =>
      rw [List.range_succ, List.flatMap_append, List.length_append, ih]
      simp [hf]
      ring

/-- Claim C10: the mesh index buffer for grid size 50 has exactly
`6 * 49^2` entries and every entry indexes one of the `50 * 50`
existing vertices. -/
theorem gridIndices_length_and_bounds :
    (gridIndices gridSize).length = 6 * (gridSize - 1) ^ 2 ∧
    (gridIndices gridSize).all (fun i => i < gridSize * gridSize) = true := by
  constructor
  · have hinner : ∀ z, ((List.range (gridSize - 1)).flatMap fun x =>
        [z * gridSize + x, (z + 1) * gridSize + x, z * gridSize + x + 1,
         z * gridSize + x + 1, (z + 1) * gridSize + x, (z + 1) * gridSize + x + 1]).length =
          (gridSize - 1) * 6 := by
      intro z
      exact length_flatMap_const _ 6 (fun _ => by simp) (gridSize - 1)
    unfold gridIndices
    rw [length_flatMap_const _ ((gridSize - 1) * 6) hinner (gridSize - 1)]
    unfold gridSize
    norm_num
  · rw [List.all_eq_true]
    intro i hi
    simp only [gridIndices, List.mem_flatMap, List.mem_range] at hi
    obtain ⟨z, hz, x, hx, hmem⟩ := hi
    simp only [List.mem_cons, List.not_mem_nil, or_false] at hmem
    simp only [decide_eq_true_eq]
    unfold gridSize at hz hx hmem ⊢
    rcases hmem with h | h | h | h | h | h <;> subst h <;> omega

/-- Claim C8 evidence: the second wave texture is never written during
setup — its contents stay whatever the allocation left there. With
allocation contents modelled as the all-ones field, its texel (0, 0)
after setup is `1`, not `0` (while the first texture is always exactly
the seeded `initialData`). -/
theorem second_texture_not_zeroed :
    (∀ alloc1 alloc2 : RField, (setupTextures alloc1 alloc2).1 = initialData) ∧
    (setupTextures (fun _ _ => 0) (fun _ _ => 1)).2
      ⟨0, by unfold gridSize; omega⟩ ⟨0, by unfold gridSize; omega⟩ = 1 ∧
    (1 : ℝ) ≠ 0 := by
  exact ⟨fun _ _ => rfl, rfl, one_ne_zero⟩

end OceanWaves
